import Mathlib

/-!
Shallow embedding of `script.py` (Forensi-Frame frame extractor).

The script validates the input path, creates the output directory, opens the
video, computes a metadata record, decodes frames sequentially while handing
each one to a thread pool that writes `frame_<idx padded to 4>.jpg`, waits for
all writes, releases the capture and prints a success message; any exception
inside the `try` block is caught and reported instead.

The environment of one run (`VideoEnv`) abstracts the outside world: whether
the input path is a file, whether the capture opens, the raw property values
returned by `cap.get`, the list of decodable frames in stream order, and
which write jobs succeed.  `extract_frames` mirrors the control flow of the
Python function of the same name and returns the observable outcome: message
sequence, whether the directory was created, the set of files written and
whether `cap.release()` was executed.
-/

/-- Python `int(x)` applied to a float/rational: truncation toward zero. -/
def pyInt (q : Rat) : Int := Int.tdiv q.num (q.den : Int)

/-- Line 94: `"".join([chr((codec >> 8 * i) & 0xFF) for i in range(4)])`.
Python `>>` is a floor shift and `& 0xFF` keeps the low byte; for the
positive power-of-two shifts used here these are Euclidean `/` and `% 256`
on `Int` (`Int./` and `Int.%` are `ediv`/`emod`). -/
def codecChars (codec : Int) : List Char :=
  (List.range 4).map (fun i => Char.ofNat ((codec / 2 ^ (8 * i) % 256).toNat))

/-- The 4-character codec string of line 94. -/
def codecStr (codec : Int) : String := String.mk (codecChars codec)

/-- Abstraction of one run's outside world, as sampled by the script. -/
structure VideoEnv where
  /-- Line 72: result of `Path(video).is_file()`. -/
  fileExists : Bool
  /-- Line 81: result of `cap.isOpened()` right after `cv2.VideoCapture`. -/
  opens : Bool
  /-- Line 86: raw value of `cap.get(cv2.CAP_PROP_FPS)`. -/
  fpsProp : Rat
  /-- Line 87: raw value of `cap.get(cv2.CAP_PROP_FRAME_COUNT)`. -/
  frameCountProp : Rat
  /-- Line 88: raw value of `cap.get(cv2.CAP_PROP_FRAME_WIDTH)`. -/
  widthProp : Rat
  /-- Line 89: raw value of `cap.get(cv2.CAP_PROP_FRAME_HEIGHT)`. -/
  heightProp : Rat
  /-- Line 93: raw value of `cap.get(cv2.CAP_PROP_FOURCC)`. -/
  fourccProp : Rat
  /-- The decodable frames in decode order: `cap.read()` yields them one by
  one and then reports `ret = False`.  Frame pixel data is abstracted to a
  natural number. -/
  frames : List Nat
  /-- Whether the write job for sequence index `i` (`cv2.imwrite`, line 59)
  succeeds; a failing write raises and the exception surfaces at
  `future.result()` (line 132). -/
  writeOk : Nat → Bool

/-- The metadata record of lines 86-103. -/
structure Metadata where
  fps : Rat
  totalFrames : Int
  duration : Option Rat
  width : Int
  height : Int
  codec : String
deriving DecidableEq

/-- One console message, in the order the script prints them. -/
inductive Msg where
  /-- Line 73: "Error: Video file ... not found!". -/
  | errorNotFound : Msg
  /-- Line 82: "Error: Failed to open video file!". -/
  | errorOpenFailed : Msg
  /-- Line 111: `console.print(table)` with the metadata record. -/
  | metadataTable (md : Metadata) : Msg
  /-- Line 137: "Success! Extracted {frame_count} frames ...". -/
  | success (count : Nat) : Msg
  /-- Line 140: the catch-all "Error: {e}" report. -/
  | errorCaught : Msg
deriving DecidableEq

/-- Observable outcome of one call to `extract_frames`. -/
structure RunResult where
  /-- Console messages in print order. -/
  messages : List Msg
  /-- Whether `Path(dir).mkdir(parents=True, exist_ok=True)` (line 77) ran. -/
  dirCreated : Bool
  /-- Paths of the image files actually written, in submission order. -/
  files : List String
  /-- Whether `cap.release()` (line 135) was executed. -/
  released : Bool
deriving DecidableEq

/-- Python `f"frame_{n:04d}"` padding: zero-pad the decimal form to width 4. -/
def pad4 (n : Nat) : String :=
  let s := toString n
  if s.length < 4 then String.mk (List.replicate (4 - s.length) '0') ++ s else s

/-- Line 58: `os.path.join(dir, f"frame_{frame_count:04d}.jpg")`. -/
def framePath (dir : String) (i : Nat) : String :=
  dir ++ "/" ++ "frame_" ++ pad4 i ++ ".jpg"

/-- Metadata computation of lines 86-103.  `x or d` in Python falls back to
`d` exactly when `x` is falsy, i.e. equal to zero. -/
def computeMetadata (env : VideoEnv) : Metadata :=
  let fps := if env.fpsProp = 0 then (30 : Rat) else env.fpsProp
  let total_frames := if pyInt env.frameCountProp = 0 then 1 else pyInt env.frameCountProp
  let width := pyInt env.widthProp
  let height := pyInt env.heightProp
  let duration : Option Rat := if 0 < fps then some ((total_frames : Rat) / fps) else none
  let codec := pyInt env.fourccProp
  let codec_str := if codec = 0 then "Unknown" else codecStr codec
  { fps := fps, totalFrames := total_frames, duration := duration,
    width := width, height := height, codec := codec_str }

/-- The decode loop of lines 120-128: each frame read successfully is paired
with the next sequence index (`frame_count`, starting at `start`) and
submitted to the pool. -/
def submitJobs (frames : List Nat) (start : Nat) : List (Nat × Nat) :=
  match frames with
  | [] => []
  | f :: rest => (start, f) :: submitJobs rest (start + 1)

/-- The body of `extract_frames` (lines 61-140).  The thread pool is a
fixed-size executor: constructing it with `max_workers ≤ 0` raises
`ValueError`; `with ThreadPoolExecutor` waits for every submitted job on
exit, so even when one write fails the remaining jobs still run and their
files are on disk.  The surrounding `try`/`except Exception` turns any
pipeline exception into the catch-all error message; `cap.release()`
(line 135) sits inside the `try` before the success print, so it only runs
when no exception occurred. -/
def extract_frames (env : VideoEnv) (dir : String) (threads : Int) : RunResult :=
  if !env.fileExists then
    { messages := [Msg.errorNotFound], dirCreated := false, files := [], released := false }
  else if !env.opens then
    { messages := [Msg.errorOpenFailed], dirCreated := true, files := [], released := false }
  else
    let md := computeMetadata env
    if threads ≤ 0 then
      { messages := [Msg.metadataTable md, Msg.errorCaught], dirCreated := true,
        files := [], released := false }
    else
      let jobs := submitJobs env.frames 0
      let files := jobs.filterMap
        (fun p => if env.writeOk p.1 then some (framePath dir p.1) else none)
      if jobs.all (fun p => env.writeOk p.1) then
        { messages := [Msg.metadataTable md, Msg.success env.frames.length],
          dirCreated := true, files := files, released := true }
      else
        { messages := [Msg.metadataTable md, Msg.errorCaught],
          dirCreated := true, files := files, released := false }

/-- Spec-side decoding of a packed 32-bit codec value, least-significant
byte first. -/
def fourccOfPacked (p : Nat) : String :=
  String.mk ((List.range 4).map (fun i => Char.ofNat (p / 2 ^ (8 * i) % 256)))

/-- The 32-bit packed value represented by the (possibly negative) codec
integer. -/
def packedFourcc (c : Int) : Nat := (c % 4294967296).toNat

example : pyInt (-5 : Rat) = -5 := by decide
example : pad4 7 = "0007" := by decide
example : framePath "out" 12 = "out/frame_0012.jpg" := by decide
example : submitJobs [10, 20] 0 = [(0, 10), (1, 20)] := by decide

lemma submitJobs_all_iff (wk : Nat → Bool) (frames : List Nat) (s : Nat) :
    (submitJobs frames s).all (fun p => wk p.1) = true ↔
      ∀ i, s ≤ i → i < s + frames.length → wk i = true := by
  induction frames generalizing s with
  | nil =>
      simp only [submitJobs, List.all_nil, List.length_nil, true_iff]
      intro i h1 h2
      exact absurd h2 (by omega)
  | cons f rest ih =>
      simp only [submitJobs, List.all_cons, Bool.and_eq_true, ih, List.length_cons]
      constructor
      · rintro ⟨h0, h1⟩ i hi1 hi2
        rcases Nat.eq_or_lt_of_le hi1 with rfl | hlt
        · exact h0
        · exact h1 i hlt (by omega)
      · intro h
        exact ⟨h s le_rfl (by omega), fun i h1 h2 => h i (by omega) (by omega)⟩

lemma submitJobs_filterMap_all (wk : Nat → Bool) (dir : String) (frames : List Nat) (s : Nat)
    (h : ∀ i, s ≤ i → i < s + frames.length → wk i = true) :
    (submitJobs frames s).filterMap
        (fun p => if wk p.1 then some (framePath dir p.1) else none)
      = (List.range' s frames.length).map (framePath dir) := by
  induction frames generalizing s with
  | nil => simp [submitJobs]
  | cons f rest ih =>
      have hs : wk s = true := h s le_rfl (by simp)
      simp only [submitJobs, List.filterMap_cons, hs, if_pos, List.range'_succ,
        List.map_cons, List.length_cons]
      refine congrArg (List.cons _) ?_
      exact ih (s + 1) (fun i h1 h2 => h i (by omega) (by simp at h2 ⊢; omega))

/-- A fully healthy two-frame run, used as a concrete witness input. -/
def envOk : VideoEnv :=
  { fileExists := true, opens := true, fpsProp := 30, frameCountProp := 2,
    widthProp := 640, heightProp := 480, fourccProp := 0,
    frames := [10, 20], writeOk := fun _ => true }

/-- A one-frame run whose write job fails (`cv2.imwrite` raises). -/
def envBadWrite : VideoEnv :=
  { envOk with frames := [10], writeOk := fun _ => false }

/-- The input path does not resolve to a file. -/
def envMissing : VideoEnv := { envOk with fileExists := false }

/-- The path exists but the capture fails to open. -/
def envNoOpen : VideoEnv := { envOk with opens := false }

/-- Strictly negative reported properties, probing the `or`-based defaults. -/
def envNegProps : VideoEnv := { envOk with fpsProp := -1, frameCountProp := -5 }

/-- A concrete packed FOURCC value (the tag "XVID"). -/
def envCodec : VideoEnv := { envOk with fourccProp := 1145656920 }

/-- C1: for a valid video with `N` decodable frames and a positive pool
size, the run writes exactly `N` image files, with indices assigned from 0
incrementing by 1 per decoded frame, named `frame_0000.jpg` through
`frame_{N-1:04d}.jpg`, no gaps and no duplicates, whatever the pool size. -/
theorem extract_frames_writes_all_indices (env : VideoEnv) (dir : String) (threads : Int)
    (hex : env.fileExists = true) (hop : env.opens = true) (hth : 1 ≤ threads)
    (hwk : ∀ i, i < env.frames.length → env.writeOk i = true) :
    (extract_frames env dir threads).files
        = (List.range env.frames.length).map (framePath dir)
      ∧ (extract_frames env dir threads).files.length = env.frames.length := by
  have hall : (submitJobs env.frames 0).all (fun p => env.writeOk p.1) = true :=
    (submitJobs_all_iff _ _ _).mpr (fun i _ h2 => hwk i (by omega))
  have hfiles := submitJobs_filterMap_all env.writeOk dir env.frames 0
    (fun i _ h2 => hwk i (by omega))
  have hth' : ¬ threads ≤ 0 := by omega
  constructor
  · simp [extract_frames, hex, hop, hth', hall, hfiles, List.range_eq_range']
  · simp [extract_frames, hex, hop, hth', hall, hfiles]

/-- C1 witness: concrete two-frame environment, pool size 1. -/
theorem extract_frames_writes_all_indices_witness :
    (extract_frames envOk "out" 1).files
        = (List.range envOk.frames.length).map (framePath "out")
      ∧ (extract_frames envOk "out" 1).files.length = envOk.frames.length :=
  extract_frames_writes_all_indices envOk "out" 1 rfl rfl (by decide) (fun i _ => rfl)

/-- C2: whenever a run prints the success message reporting `c` extracted
frames, `c` equals the number of frame image files written to the output
directory by that run. -/
theorem success_count_matches_files (env : VideoEnv) (dir : String) (threads : Int) (c : Nat)
    (h : Msg.success c ∈ (extract_frames env dir threads).messages) :
    c = (extract_frames env dir threads).files.length := by
  unfold extract_frames at h ⊢
  cases hex : env.fileExists with
  | false => simp [hex] at h
  | true =>
    cases hop : env.opens with
    | false => simp [hex, hop] at h
    | true =>
      by_cases hth : threads ≤ 0
      · simp [hex, hop, hth] at h
      · by_cases hall : (submitJobs env.frames 0).all (fun p => env.writeOk p.1) = true
        · simp [hex, hop, hth, hall] at h ⊢
          subst h
          have hfiles := submitJobs_filterMap_all env.writeOk dir env.frames 0
            (fun i _ h2 => ((submitJobs_all_iff _ _ _).mp hall) i (by omega) (by omega))
          rw [hfiles]
          simp
        · simp [hex, hop, hth, hall] at h

/-- C2 witness: the concrete healthy run reports 2 frames and wrote 2 files. -/
theorem success_count_matches_files_witness :
    Msg.success 2 ∈ (extract_frames envOk "out" 4).messages
      ∧ 2 = (extract_frames envOk "out" 4).files.length :=
  ⟨by decide, success_count_matches_files envOk "out" 4 2 (by decide)⟩

lemma computeMetadata_fps (env : VideoEnv) :
    (computeMetadata env).fps = if env.fpsProp = 0 then (30 : Rat) else env.fpsProp := rfl

lemma computeMetadata_totalFrames (env : VideoEnv) :
    (computeMetadata env).totalFrames
      = if pyInt env.frameCountProp = 0 then 1 else pyInt env.frameCountProp := rfl

/-- C3 counterexample: with a reported frame rate of -1 (which is ≤ 0) the
metadata keeps -1 instead of defaulting to 30, and a reported frame count
of -5 stays -5 instead of defaulting to 1; Python `or` only replaces falsy
(zero) values, so strictly negative reports pass through. -/
theorem metadata_defaults_counterexample :
    envNegProps.fpsProp ≤ 0 ∧ (computeMetadata envNegProps).fps ≠ 30
      ∧ pyInt envNegProps.frameCountProp ≤ 0
      ∧ (computeMetadata envNegProps).totalFrames ≠ 1 := by
  refine ⟨by decide, ?_, by decide, ?_⟩ <;> decide

/-- C3 amended: the frame-rate default fires exactly on a reported rate of
0, so the recorded rate is 30 iff the source reported 0 or literally 30,
and a strictly negative reported rate is recorded unchanged; likewise the
frame-count default fires exactly on a reported count truncating to 0, and
a strictly negative count is recorded unchanged. -/
theorem metadata_defaults_amended (env : VideoEnv) :
    ((computeMetadata env).fps = 30 ↔ (env.fpsProp = 0 ∨ env.fpsProp = 30))
      ∧ ((computeMetadata env).totalFrames = 1
          ↔ (pyInt env.frameCountProp = 0 ∨ pyInt env.frameCountProp = 1))
      ∧ (env.fpsProp < 0 → (computeMetadata env).fps = env.fpsProp)
      ∧ (pyInt env.frameCountProp < 0
          → (computeMetadata env).totalFrames = pyInt env.frameCountProp) := by
  refine ⟨?_, ?_, ?_, ?_⟩
  · rw [computeMetadata_fps]
    split_ifs with h <;> simp [h]
  · rw [computeMetadata_totalFrames]
    split_ifs with h <;> simp [h]
  · intro hneg
    have h0 : env.fpsProp ≠ 0 := by
      intro h0
      rw [h0] at hneg
      exact lt_irrefl 0 hneg
    rw [computeMetadata_fps, if_neg h0]
  · intro hneg
    have h0 : pyInt env.frameCountProp ≠ 0 := by omega
    rw [computeMetadata_totalFrames, if_neg h0]

/-- C3 amended witness: at the negative-property environment the recorded
rate is not 30 and the recorded count is not 1, and both pass through. -/
theorem metadata_defaults_amended_witness :
    ((computeMetadata envNegProps).fps = 30
        ↔ (envNegProps.fpsProp = 0 ∨ envNegProps.fpsProp = 30))
      ∧ ((computeMetadata envNegProps).totalFrames = 1
          ↔ (pyInt envNegProps.frameCountProp = 0 ∨ pyInt envNegProps.frameCountProp = 1))
      ∧ (envNegProps.fpsProp < 0 → (computeMetadata envNegProps).fps = envNegProps.fpsProp)
      ∧ (pyInt envNegProps.frameCountProp < 0
          → (computeMetadata envNegProps).totalFrames = pyInt envNegProps.frameCountProp) :=
  metadata_defaults_amended envNegProps

/-- C4: a nonexistent input aborts before `mkdir` runs: only the not-found
error is printed, the output directory is not created and no image file is
written. -/
theorem missing_input_no_side_effects (env : VideoEnv) (dir : String) (threads : Int)
    (hex : env.fileExists = false) :
    (extract_frames env dir threads).dirCreated = false
      ∧ (extract_frames env dir threads).files = []
      ∧ (extract_frames env dir threads).messages = [Msg.errorNotFound] := by
  simp [extract_frames, hex]

/-- C4 witness: the concrete missing-file environment. -/
theorem missing_input_no_side_effects_witness :
    (extract_frames envMissing "out" 4).dirCreated = false
      ∧ (extract_frames envMissing "out" 4).files = []
      ∧ (extract_frames envMissing "out" 4).messages = [Msg.errorNotFound] :=
  missing_input_no_side_effects envMissing "out" 4 rfl

/-- C5: any pipeline exception — an invalid pool size raising at executor
construction, or a failing write surfacing at `future.result()` — is caught
by the `except Exception` clause: the catch-all error is printed, no
success message appears, and `extract_frames` still returns an ordinary
result (it is a total function here, so no exception reaches the caller). -/
theorem pipeline_exception_caught (env : VideoEnv) (dir : String) (threads : Int)
    (hex : env.fileExists = true) (hop : env.opens = true)
    (hfail : threads ≤ 0 ∨ ∃ i, i < env.frames.length ∧ env.writeOk i = false) :
    Msg.errorCaught ∈ (extract_frames env dir threads).messages
      ∧ ∀ c, Msg.success c ∉ (extract_frames env dir threads).messages := by
  by_cases hth : threads ≤ 0
  · simp [extract_frames, hex, hop, hth]
  · rcases hfail with hth' | ⟨i, hi, hwk⟩
    · exact absurd hth' hth
    · have hall : ¬ (submitJobs env.frames 0).all (fun p => env.writeOk p.1) = true := by
        intro hall
        have := (submitJobs_all_iff _ _ _).mp hall i (by omega) (by omega)
        rw [hwk] at this
        exact Bool.false_ne_true this
      simp [extract_frames, hex, hop, hth, hall]

/-- C5 witness: the failing-write environment with the default pool size. -/
theorem pipeline_exception_caught_witness :
    Msg.errorCaught ∈ (extract_frames envBadWrite "out" 4).messages
      ∧ ∀ c, Msg.success c ∉ (extract_frames envBadWrite "out" 4).messages :=
  pipeline_exception_caught envBadWrite "out" 4 rfl rfl (Or.inr ⟨0, by decide, rfl⟩)

/-- C6 counterexample: a run whose capture opened successfully but whose
single write job fails ends in the catch-all error with `cap.release()`
skipped — the release call sits inside the `try` block with no `finally`,
so an in-pipeline exception jumps over it. -/
theorem release_skipped_on_failure :
    envBadWrite.fileExists = true ∧ envBadWrite.opens = true
      ∧ Msg.errorCaught ∈ (extract_frames envBadWrite "out" 4).messages
      ∧ (extract_frames envBadWrite "out" 4).released = false :=
  ⟨rfl, rfl, by decide, by decide⟩

/-- C6 amended: the capture is released exactly on fully successful runs —
input present, capture opened, positive pool size, every write succeeded;
on any in-pipeline exception control reaches the `except` clause without
passing `cap.release()`, so a successfully opened source is left
unreleased when extraction fails. -/
theorem release_iff_success (env : VideoEnv) (dir : String) (threads : Int) :
    (extract_frames env dir threads).released = true
      ↔ (env.fileExists = true ∧ env.opens = true ∧ 0 < threads
          ∧ ∀ i, i < env.frames.length → env.writeOk i = true) := by
  cases hex : env.fileExists with
  | false => simp [extract_frames, hex]
  | true =>
    cases hop : env.opens with
    | false => simp [extract_frames, hex, hop]
    | true =>
      by_cases hth : threads ≤ 0
      · have hth' : ¬ (0 : Int) < threads := by omega
        simp [extract_frames, hex, hop, hth, hth']
      · by_cases hall : (submitJobs env.frames 0).all (fun p => env.writeOk p.1) = true
        · have hwk : ∀ i, i < env.frames.length → env.writeOk i = true :=
            fun i hi => (submitJobs_all_iff _ _ _).mp hall i (by omega) (by omega)
          have hth' : (0 : Int) < threads := by omega
          simp [extract_frames, hex, hop, hth, hall, hth']
          exact hwk
        · have hnwk : ¬ ∀ i, i < env.frames.length → env.writeOk i = true := by
            intro hwk
            exact hall ((submitJobs_all_iff _ _ _).mpr (fun i _ h2 => hwk i (by omega)))
          simp [extract_frames, hex, hop, hth, hall, hnwk]

/-- C7: the final file list depends only on the decoded frames and write
outcomes, never on the pool size: two runs over the same valid video with
pool sizes ≥ 1 write exactly the same files. -/
theorem files_independent_of_pool_size (env : VideoEnv) (dir : String) (t1 t2 : Int)
    (hex : env.fileExists = true) (hop : env.opens = true)
    (h1 : 1 ≤ t1) (h2 : 1 ≤ t2) :
    (extract_frames env dir t1).files = (extract_frames env dir t2).files := by
  have h1' : ¬ t1 ≤ 0 := by omega
  have h2' : ¬ t2 ≤ 0 := by omega
  cases hall : (submitJobs env.frames 0).all (fun p => env.writeOk p.1) <;>
    simp [extract_frames, hex, hop, h1', h2', hall]

/-- C7 witness: pool sizes 4 and 1 on the concrete healthy environment. -/
theorem files_independent_of_pool_size_witness :
    (extract_frames envOk "out" 4).files = (extract_frames envOk "out" 1).files :=
  files_independent_of_pool_size envOk "out" 4 1 rfl rfl (by decide) (by decide)

/-- C9: with a non-positive thread count on an existing, openable video,
`ThreadPoolExecutor(max_workers=threads)` raises before any frame is read:
the directory was already created and the metadata table already printed,
then the run ends with the catch-all error — no file is written and no
success message appears. -/
theorem nonpositive_threads_aborts (env : VideoEnv) (dir : String) (threads : Int)
    (hex : env.fileExists = true) (hop : env.opens = true) (hth : threads ≤ 0) :
    (extract_frames env dir threads).messages
        = [Msg.metadataTable (computeMetadata env), Msg.errorCaught]
      ∧ (extract_frames env dir threads).files = []
      ∧ (extract_frames env dir threads).dirCreated = true := by
  simp [extract_frames, hex, hop, hth]

/-- C9 witness: thread count 0 on the concrete healthy environment. -/
theorem nonpositive_threads_aborts_witness :
    (extract_frames envOk "out" 0).messages
        = [Msg.metadataTable (computeMetadata envOk), Msg.errorCaught]
      ∧ (extract_frames envOk "out" 0).files = []
      ∧ (extract_frames envOk "out" 0).dirCreated = true :=
  nonpositive_threads_aborts envOk "out" 0 rfl rfl (by decide)

/-- C10: when the input file exists but the capture fails to open, `mkdir`
(line 77) has already run before the `isOpened` check (line 81): the output
directory is created, then the run aborts with the open-failure error and
writes nothing. -/
theorem open_failure_after_mkdir (env : VideoEnv) (dir : String) (threads : Int)
    (hex : env.fileExists = true) (hop : env.opens = false) :
    (extract_frames env dir threads).dirCreated = true
      ∧ (extract_frames env dir threads).files = []
      ∧ (extract_frames env dir threads).messages = [Msg.errorOpenFailed] := by
  simp [extract_frames, hex, hop]

/-- C10 witness: the concrete environment whose capture does not open. -/
theorem open_failure_after_mkdir_witness :
    (extract_frames envNoOpen "out" 4).dirCreated = true
      ∧ (extract_frames envNoOpen "out" 4).files = []
      ∧ (extract_frames envNoOpen "out" 4).messages = [Msg.errorOpenFailed] :=
  open_failure_after_mkdir envNoOpen "out" 4 rfl rfl

lemma codecChars_eq_packed (c : Int) :
    codecChars c
      = (List.range 4).map (fun i => Char.ofNat (packedFourcc c / 2 ^ (8 * i) % 256)) := by
  have h := Int.ediv_add_emod c 4294967296
  simp only [codecChars, packedFourcc, List.range_succ, List.range_zero,
    List.map_append, List.map_cons, List.map_nil, List.nil_append, List.cons_append,
    List.append_assoc]
  norm_num
  refine ⟨?_, ?_, ?_, ?_⟩ <;> (congr 1; omega)

lemma codecStr_length (c : Int) : (codecStr c).length = 4 := rfl

/-- C8: for a codec value in signed 32-bit range, the recorded codec tag is
"Unknown" exactly when the 32-bit packed value is zero, and otherwise it is
the 4-character string whose i-th character (i = 0..3) is the i-th least
significant byte of the packed value. -/
theorem codec_tag_decodes (env : VideoEnv)
    (hlo : -2147483648 ≤ pyInt env.fourccProp)
    (hhi : pyInt env.fourccProp < 2147483648) :
    ((computeMetadata env).codec = "Unknown" ↔ packedFourcc (pyInt env.fourccProp) = 0)
      ∧ (packedFourcc (pyInt env.fourccProp) ≠ 0 →
          (computeMetadata env).codec = fourccOfPacked (packedFourcc (pyInt env.fourccProp))) := by
  have hcodec : (computeMetadata env).codec
      = if pyInt env.fourccProp = 0 then "Unknown" else codecStr (pyInt env.fourccProp) := rfl
  have hzero : pyInt env.fourccProp = 0 ↔ packedFourcc (pyInt env.fourccProp) = 0 := by
    unfold packedFourcc
    omega
  constructor
  · rw [hcodec]
    split_ifs with h
    · simp [hzero.mp h]
    · constructor
      · intro habs
        have hlen := congrArg String.length habs
        rw [codecStr_length] at hlen
        exact absurd hlen (by decide)
      · intro hp
        exact absurd (hzero.mpr hp) h
  · intro hp
    have h : pyInt env.fourccProp ≠ 0 := fun h0 => hp (hzero.mp h0)
    rw [hcodec, if_neg h]
    unfold codecStr fourccOfPacked
    rw [codecChars_eq_packed]

/-- C8 witness: the packed tag 1145656920 decodes to "XVID". -/
theorem codec_tag_decodes_witness :
    ((computeMetadata envCodec).codec = "Unknown"
        ↔ packedFourcc (pyInt envCodec.fourccProp) = 0)
      ∧ (packedFourcc (pyInt envCodec.fourccProp) ≠ 0 →
          (computeMetadata envCodec).codec
            = fourccOfPacked (packedFourcc (pyInt envCodec.fourccProp))) :=
  codec_tag_decodes envCodec (by decide) (by decide)
